import Mathlib

/-!
Verification development for the BLE central sample
(`samples/bluetooth/central/src/main.c`): a shallow embedding of the
advertisement-data (AD) parser `ad_parse`, the UUID16-scanning visitor
`eir_found`, and the GATT discovery state machine driven by
`discover_func`, `connected` and `disconnected`, together with theorems
about them.

Memory is modelled as a total function `Nat → Nat` from byte addresses to
byte values; every read applies `% 256` so that arbitrary functions play
the role of arbitrary memory contents (`uint8_t` reads).  Loops are
embedded as structurally recursive functions on an explicit bound (the C
loops strictly decrease `len` resp. strictly increase `i`, so the bound is
exact); a congruence lemma recovers the bound-free unfolding equation.
-/

namespace BtCentral

/-- `BT_EIR_UUID16_SOME` advertisement data type (incomplete list of
16-bit service UUIDs), from the Bluetooth core spec / hci.h. -/
def BT_EIR_UUID16_SOME : Nat := 0x02

/-- `BT_EIR_UUID16_ALL` advertisement data type (complete list of 16-bit
service UUIDs). -/
def BT_EIR_UUID16_ALL : Nat := 0x03

/-- `BT_UUID_HRS`: the Heart Rate service UUID the sample scans for. -/
def BT_UUID_HRS : Nat := 0x180d

/-- `BT_UUID_HRS_MEASUREMENT`: Heart Rate Measurement characteristic UUID. -/
def BT_UUID_HRS_MEASUREMENT : Nat := 0x2a37

/-- `BT_UUID_GATT_CCC`: Client Characteristic Configuration descriptor UUID. -/
def BT_UUID_GATT_CCC : Nat := 0x2902

/-- `EALREADY` errno value (operation already in progress); the code
compares the subscribe result against `-EALREADY`. -/
def EALREADY : Int := 120

/-- Result of one call of the per-record visitor: the `bool` it returns
(`true` = keep parsing) and the byte addresses it read. -/
structure VisitOut where
  cont : Bool
  reads : List Nat
deriving DecidableEq

/-- How a run of `ad_parse` ended: buffer exhausted (`len` reached 0),
zero length byte (early termination), malformed record, or the visitor
returned false. -/
inductive ParseEnd where
  | bufEnd
  | terminator
  | malformed
  | visitStop
deriving DecidableEq

/-- The UUID16 scan loop of `eir_found`:
`for (i = 0; i < eir->len; i += sizeof(u16)) memcpy(&u16, &eir->data[i], 2)`,
at record offset `o` (so `eir->data[i]` is byte `o + 2 + i`), stopping
with `true` when the little-endian pair equals `BT_UUID_HRS`.  Returns
the addresses read and whether the target UUID was found.  The loop runs
at most `L` guarded iterations (`i` grows by 2 each time), so a
structural bound of `L` is exact: when the bound runs out the guard
`i < L` is already false and the returned value coincides. -/
def scanUuidsFuel (mem : Nat → Nat) (o L : Nat) : Nat → Nat → List Nat × Bool
  | 0, _ => ([], false)
  | fuel + 1, i =>
    if i < L then
      if mem (o + 2 + i) % 256 + 256 * (mem (o + 2 + i + 1) % 256) = BT_UUID_HRS then
        ([o + 2 + i, o + 2 + i + 1], true)
      else
        let r := scanUuidsFuel mem o L fuel (i + 2)
        ((o + 2 + i) :: (o + 2 + i + 1) :: r.1, r.2)
    else ([], false)

/-- The UUID16 scan loop of `eir_found` started at `i = 0`. -/
def scanUuids (mem : Nat → Nat) (o L : Nat) : List Nat × Bool :=
  scanUuidsFuel mem o L L 0

/-- `eir_found` at a record starting at byte `o` of `mem`: the record's
length byte is `mem o` and its type byte is `mem (o+1)` (both read by
the initial printk).  For `UUID16_SOME`/`UUID16_ALL` records it first
checks `(eir->len - sizeof(eir->type)) % sizeof(u16) != 0` — `size_t`
arithmetic, hence the `Int` emod, which agrees with the C wrap-around
value — and skips the record (returns `true`) when the data length is
odd; otherwise it runs the UUID scan and returns `false` (stop parsing,
after stopping the scan and creating the connection) exactly when
`BT_UUID_HRS` was found.  All other record types just return `true`. -/
def eir_found (mem : Nat → Nat) (o : Nat) : VisitOut :=
  let L := mem o % 256
  let t := mem (o + 1) % 256
  if t = BT_EIR_UUID16_SOME ∨ t = BT_EIR_UUID16_ALL then
    if ((L : Int) - 1) % 2 ≠ 0 then
      VisitOut.mk true [o, o + 1]
    else
      let r := scanUuids mem o L
      VisitOut.mk (!r.2) (o :: (o + 1) :: r.1)
  else VisitOut.mk true [o, o + 1]

/-- The `ad_parse` loop body, structurally recursive on an explicit
bound.  At each iteration with `len > 0` it reads the length byte
`L = mem o % 256`; returns on `L = 0` (terminator); reports malformed
input and returns when `L + 1 > len` or `len < 2`; otherwise calls the
visitor `f` at offset `o` and, if the visitor returned `true`, advances
`o` by `1 + L` and decreases `len` by `1 + L`.  Results collect the
offsets of visited records, every byte address read (by the loop and by
the visitor), and how the loop ended.  Since `len` strictly decreases,
a bound of `len` iterations is exact; at bound 0 necessarily `len = 0`
and both cases return the same value. -/
def adParseFuel (mem : Nat → Nat) (f : Nat → VisitOut) :
    Nat → Nat → Nat → List Nat × List Nat × ParseEnd
  | 0, _, _ => ([], [], ParseEnd.bufEnd)
  | fuel + 1, o, len =>
    if len = 0 then ([], [], ParseEnd.bufEnd)
    else
      let L := mem o % 256
      if L = 0 then ([], [o], ParseEnd.terminator)
      else if L + 1 > len ∨ len < 2 then ([], [o], ParseEnd.malformed)
      else
        let v := f o
        if v.cont then
          let r := adParseFuel mem f fuel (o + 1 + L) (len - (1 + L))
          (o :: r.1, o :: v.reads ++ r.2.1, r.2.2)
        else ([o], o :: v.reads, ParseEnd.visitStop)

/-- `ad_parse(data, len, func, user_data)` over memory `mem`, with the
buffer starting at address `o` and holding `len` bytes. -/
def ad_parse (mem : Nat → Nat) (f : Nat → VisitOut) (o len : Nat) :
    List Nat × List Nat × ParseEnd :=
  adParseFuel mem f len o len

theorem adParseFuel_congr (mem : Nat → Nat) (f : Nat → VisitOut) :
    ∀ fuel1 fuel2 o len, len ≤ fuel1 → len ≤ fuel2 →
      adParseFuel mem f fuel1 o len = adParseFuel mem f fuel2 o len := by
  intro fuel1
  induction fuel1 with
  | zero =>
    intro fuel2 o len h1 h2
    have hlen : len = 0 := Nat.le_zero.mp h1
    subst hlen
    cases fuel2 with
    | zero => rfl
    | succ m => simp [adParseFuel]
  | succ n ih =>
    intro fuel2 o len h1 h2
    cases fuel2 with
    | zero =>
      have hlen : len = 0 := Nat.le_zero.mp h2
      subst hlen
      simp [adParseFuel]
    | succ m =>
      by_cases hlen : len = 0
      · subst hlen; simp [adParseFuel]
      · simp only [adParseFuel, if_neg hlen]
        by_cases hL0 : mem o % 256 = 0
        · simp [hL0]
        · simp only [if_neg hL0]
          by_cases hbad : mem o % 256 + 1 > len ∨ len < 2
          · simp [hbad]
          · simp only [if_neg hbad]
            have hrec : adParseFuel mem f n (o + 1 + mem o % 256) (len - (1 + mem o % 256)) =
                adParseFuel mem f m (o + 1 + mem o % 256) (len - (1 + mem o % 256)) := by
              apply ih <;> omega
            by_cases hc : (f o).cont
            · simp [hc, hrec]
            · simp [hc]

/-- Unfolding equation for `ad_parse`: the literal loop body of the C
function, with the recursive occurrence again `ad_parse`. -/
theorem ad_parse_eq (mem : Nat → Nat) (f : Nat → VisitOut) (o len : Nat) :
    ad_parse mem f o len =
      if len = 0 then ([], [], ParseEnd.bufEnd)
      else if mem o % 256 = 0 then ([], [o], ParseEnd.terminator)
      else if mem o % 256 + 1 > len ∨ len < 2 then ([], [o], ParseEnd.malformed)
      else if (f o).cont then
        let r := ad_parse mem f (o + 1 + mem o % 256) (len - (1 + mem o % 256))
        (o :: r.1, o :: (f o).reads ++ r.2.1, r.2.2)
      else ([o], o :: (f o).reads, ParseEnd.visitStop) := by
  by_cases hlen : len = 0
  · subst hlen; rfl
  · obtain ⟨n, rfl⟩ : ∃ n, len = n + 1 := ⟨len - 1, by omega⟩
    show adParseFuel mem f (n + 1) o (n + 1) = _
    simp only [adParseFuel, if_neg hlen]
    by_cases hL0 : mem o % 256 = 0
    · simp [hL0]
    · simp only [if_neg hL0]
      by_cases hbad : mem o % 256 + 1 > n + 1 ∨ n + 1 < 2
      · simp only [if_pos hbad]
      · simp only [if_neg hbad]
        have hrec : adParseFuel mem f n (o + 1 + mem o % 256) (n + 1 - (1 + mem o % 256)) =
            ad_parse mem f (o + 1 + mem o % 256) (n + 1 - (1 + mem o % 256)) := by
          apply adParseFuel_congr <;> omega
        by_cases hc : (f o).cont = true
        · simp only [if_pos hc, hrec]
        · simp only [if_neg hc]

/-- The view of one AD record, as the visitor can read it through its
`struct bt_eir` pointer: length byte, type byte, and the `len - 1` data
bytes that follow. -/
structure AdRecord where
  len : Nat
  type : Nat
  data : List Nat
deriving DecidableEq

/-- The record a visitor sees at offset `o` of `mem`: `eir->len` is byte
`o`, `eir->type` is byte `o + 1`, `eir->data` holds the next
`eir->len - 1` bytes. -/
def recAt (mem : Nat → Nat) (o : Nat) : AdRecord :=
  AdRecord.mk (mem o % 256) (mem (o + 1) % 256)
    ((List.range (mem o % 256 - 1)).map (fun i => mem (o + 2 + i) % 256))

/-- A well-formed AD record: the length field counts the type byte plus
the data bytes, fits in the `uint8_t` length field, and type and data
are bytes. -/
def wfRec (r : AdRecord) : Bool :=
  (r.len == r.data.length + 1) && decide (r.len ≤ 255) && decide (r.type < 256) &&
    r.data.all (fun b => decide (b < 256))

/-- Flat encoding of one AD record: length byte, type byte, data bytes. -/
def encRec (r : AdRecord) : List Nat := r.len :: r.type :: r.data

/-- Flat encoding of a sequence of AD records. -/
def encode : List AdRecord → List Nat
  | [] => []
  | r :: rest => encRec r ++ encode rest

/-- Memory whose bytes from address 0 are the encoding of `rs`. -/
def encMem (rs : List AdRecord) : Nat → Nat :=
  fun i => (encode rs).getD i 0

/-- A record-level visitor `g` lifted to the offset-based visitor
interface of `ad_parse`: it decides on the record view at the offset. -/
def liftVisitor (mem : Nat → Nat) (g : AdRecord → Bool) : Nat → VisitOut :=
  fun o => VisitOut.mk (g (recAt mem o)) []

/-- The visit calls parsing a record sequence should produce: the
records in order up to and including the first one on which the visitor
asks to stop. -/
def visitsOf (g : AdRecord → Bool) : List AdRecord → List AdRecord
  | [] => []
  | r :: rest => if g r then r :: visitsOf g rest else [r]

/-- Why parsing an encoded record sequence ends: at the end of the
buffer, unless some visit call returned `false` first. -/
def stopReason (g : AdRecord → Bool) : List AdRecord → ParseEnd
  | [] => ParseEnd.bufEnd
  | r :: rest => if g r then stopReason g rest else ParseEnd.visitStop

/-- `mem` holds the bytes `bs` starting at address `o`. -/
def memAgrees (mem : Nat → Nat) (o : Nat) (bs : List Nat) : Prop :=
  ∀ i, i < bs.length → mem (o + i) = bs.getD i 0

theorem memAgrees_nil (mem : Nat → Nat) (o : Nat) : memAgrees mem o [] := by
  intro i hi
  simp at hi

theorem memAgrees_cons {mem : Nat → Nat} {o : Nat} {b : Nat} {bs : List Nat} :
    memAgrees mem o (b :: bs) ↔ mem o = b ∧ memAgrees mem (o + 1) bs := by
  constructor
  · intro h
    refine ⟨?_, ?_⟩
    · have := h 0 (by simp)
      simpa using this
    · intro i hi
      have := h (i + 1) (by simp; omega)
      have harith : o + 1 + i = o + (i + 1) := by omega
      rw [harith]
      simpa using this
  · rintro ⟨h0, ht⟩ i hi
    cases i with
    | zero => simpa using h0
    | succ j =>
      have hj : j < bs.length := by simp at hi; omega
      have := ht j hj
      have harith : o + (j + 1) = o + 1 + j := by omega
      rw [harith]
      simpa using this

theorem memAgrees_append {mem : Nat → Nat} {l l2 : List Nat} :
    ∀ {o : Nat}, memAgrees mem o (l ++ l2) ↔
      memAgrees mem o l ∧ memAgrees mem (o + l.length) l2 := by
  induction l with
  | nil =>
    intro o
    simp [memAgrees_nil]
  | cons a l ih =>
    intro o
    rw [List.cons_append, memAgrees_cons, memAgrees_cons, ih]
    constructor
    · rintro ⟨ha, hl, h2⟩
      refine ⟨⟨ha, hl⟩, ?_⟩
      have harith : o + (a :: l).length = o + 1 + l.length := by simp; omega
      rw [harith]
      exact h2
    · rintro ⟨⟨ha, hl⟩, h2⟩
      refine ⟨ha, hl, ?_⟩
      have harith : o + 1 + l.length = o + (a :: l).length := by simp; omega
      rw [harith]
      exact h2

theorem range_map_of_agrees (mem : Nat → Nat) :
    ∀ (d : List Nat) (a : Nat), memAgrees mem a d → (∀ b ∈ d, b < 256) →
      (List.range d.length).map (fun i => mem (a + i) % 256) = d := by
  intro d
  induction d with
  | nil => intro a _ _; simp
  | cons b d ih =>
    intro a hag hb
    rw [memAgrees_cons] at hag
    obtain ⟨h0, ht⟩ := hag
    have hb0 : b < 256 := hb b (by simp)
    simp only [List.length_cons, List.range_succ_eq_map, List.map_cons, List.map_map]
    rw [List.cons_eq_cons]
    constructor
    · simpa [h0] using Nat.mod_eq_of_lt hb0
    · have hcongr : ∀ x ∈ List.range d.length,
          ((fun i => mem (a + i) % 256) ∘ Nat.succ) x = (fun i => mem (a + 1 + i) % 256) x := by
        intro x _
        simp only [Function.comp]
        have harith : a + (x + 1) = a + 1 + x := by omega
        rw [Nat.succ_eq_add_one, harith]
      rw [List.map_congr_left hcongr]
      exact ih (a + 1) ht (fun x hx => hb x (by simp [hx]))

/-- The three static `struct bt_uuid` objects of the sample; the code
dispatches on which of them `discover_params.uuid` points to. -/
inductive UuidId where
  | hrs
  | hrm
  | ccc
deriving DecidableEq

/-- `BT_GATT_DISCOVER_PRIMARY` / `_CHARACTERISTIC` / `_DESCRIPTOR`. -/
inductive DiscType where
  | primary
  | characteristic
  | descriptor
deriving DecidableEq

/-- The value `discover_func` returns to the discovery engine:
`BT_GATT_ITER_STOP` or `BT_GATT_ITER_CONTINUE`. -/
inductive GattIter where
  | stop
  | continu
deriving DecidableEq

/-- `BT_GATT_CCC_NOTIFY`. -/
def BT_GATT_CCC_NOTIFY : Nat := 1

/-- `BT_SCAN_FILTER_DUP_DISABLE`. -/
def BT_SCAN_FILTER_DUP_DISABLE : Nat := 0

/-- `BT_SCAN_FILTER_DUP_ENABLE`. -/
def BT_SCAN_FILTER_DUP_ENABLE : Nat := 1

/-- The global `static struct bt_gatt_discover_params discover_params`:
which static UUID object `uuid` points to (`none` models `NULL`), the
search window, and the discovery kind.  Globals are zero-initialized. -/
structure DiscoverParams where
  uuid : Option UuidId
  start_handle : Nat
  end_handle : Nat
  dtype : Option DiscType
deriving DecidableEq

/-- The global `static struct bt_gatt_subscribe_params subscribe_params`:
the recorded characteristic value handle, the CCC `value` flags, and
whether `func` has been assigned (`subscribe_func`). -/
structure SubscribeParams where
  value_handle : Nat
  value : Nat
  funcSet : Bool
deriving DecidableEq

/-- The sample's mutable global state: `default_conn` (a connection
identified by a numeric id, `none` models `NULL`), `discover_params`,
and `subscribe_params`. -/
structure AppState where
  default_conn : Option Nat
  discover_params : DiscoverParams
  subscribe_params : SubscribeParams
deriving DecidableEq

/-- The zero-initialized globals at program start. -/
def initState : AppState :=
  AppState.mk none (DiscoverParams.mk none 0 0 none) (SubscribeParams.mk 0 0 false)

/-- Observable actions of the state machine: outbound requests to the
BLE host stack, with the accept/reject result the stub returned, and
the error messages printed.  `discoverReq` records the parameters the
`bt_gatt_discover` call passes (kind, target UUID, search window);
`subscribeReq` records the attribute handle and the recorded value
handle passed to `bt_gatt_subscribe`; `scanStart` records the
duplicate-filtering argument of `bt_start_scanning`. -/
inductive Event where
  | discoverReq (dtype : DiscType) (uuid : UuidId) (startHandle endHandle : Nat) (err : Int)
  | subscribeReq (handle valueHandle : Nat) (err : Int)
  | discoverFailedMsg (err : Int)
  | subscribeFailedMsg (err : Int)
  | scanStart (filter : Nat) (err : Int)
  | scanFailedMsg (err : Int)
deriving DecidableEq

/-- Whether an event is a subscribe request. -/
def isSubscribeReq : Event → Bool
  | Event.subscribeReq _ _ _ => true
  | _ => false

/-- Modelled from the spec: the discovery-session stage enum
(`Idle → DiscoverPrimaryService → DiscoverCharacteristic →
DiscoverDescriptor → Subscribed`).  The code has no stage variable; the
spec's stage abstracts the code's concrete state. -/
inductive Stage where
  | idle
  | discoverPrimaryService
  | discoverCharacteristic
  | discoverDescriptor
  | subscribed
deriving DecidableEq

/-- Modelled from the spec: the abstraction mapping the code's state to
the spec's session stage.  `discover_func` dispatches on which UUID
object `discover_params.uuid` points to, so the pointer determines the
stage; `Subscribed` is not distinguishable from the pointer alone and
is read off from the session's emitted requests: the session is
`Subscribed` once it has issued its subscribe request.  `tr` is the
trace of events emitted since the session started. -/
def stageOf (st : AppState) (tr : List Event) : Stage :=
  if tr.any isSubscribeReq then Stage.subscribed
  else
    match st.discover_params.uuid with
    | none => Stage.idle
    | some UuidId.hrs => Stage.discoverPrimaryService
    | some UuidId.hrm => Stage.discoverCharacteristic
    | some UuidId.ccc => Stage.discoverDescriptor

/-- `discover_func(attr, user_data)`: the per-attribute discovery
callback.  `stubErr` is the value the `bt_gatt_discover` resp.
`bt_gatt_subscribe` call made inside the branch returns.  Returns the
new global state, the events emitted (the request plus an error message
when the branch reports one), and the iteration signal returned to the
discovery engine.  Dispatch: `discover_params.uuid == &hrs` starts
characteristic discovery from `attr->handle + 1`;
`discover_params.uuid == &hrm` records
`subscribe_params.value_handle = attr->handle + 1` and starts
descriptor discovery from `attr->handle + 2`; anything else subscribes
on `attr->handle`, treating `-EALREADY` as success.  Every branch
returns `BT_GATT_ITER_STOP`. -/
def discover_func (st : AppState) (attrHandle : Nat) (stubErr : Int) :
    AppState × List Event × GattIter :=
  match st.discover_params.uuid with
  | some UuidId.hrs =>
    let dp := DiscoverParams.mk (some UuidId.hrm) (attrHandle + 1)
      st.discover_params.end_handle (some DiscType.characteristic)
    let evs := Event.discoverReq DiscType.characteristic UuidId.hrm (attrHandle + 1)
        st.discover_params.end_handle stubErr ::
      (if stubErr ≠ 0 then [Event.discoverFailedMsg stubErr] else [])
    (AppState.mk st.default_conn dp st.subscribe_params, evs, GattIter.stop)
  | some UuidId.hrm =>
    let dp := DiscoverParams.mk (some UuidId.ccc) (attrHandle + 2)
      st.discover_params.end_handle (some DiscType.descriptor)
    let sp := SubscribeParams.mk (attrHandle + 1) st.subscribe_params.value
      st.subscribe_params.funcSet
    let evs := Event.discoverReq DiscType.descriptor UuidId.ccc (attrHandle + 2)
        st.discover_params.end_handle stubErr ::
      (if stubErr ≠ 0 then [Event.discoverFailedMsg stubErr] else [])
    (AppState.mk st.default_conn dp sp, evs, GattIter.stop)
  | _ =>
    let sp := SubscribeParams.mk st.subscribe_params.value_handle BT_GATT_CCC_NOTIFY true
    let evs := Event.subscribeReq attrHandle st.subscribe_params.value_handle stubErr ::
      (if stubErr ≠ 0 ∧ stubErr ≠ -EALREADY then [Event.subscribeFailedMsg stubErr] else [])
    (AppState.mk st.default_conn st.discover_params sp, evs, GattIter.stop)

/-- The `connected(conn)` callback: when `conn` is the tracked
connection, set up `discover_params` for primary-service discovery of
the HRS UUID over the window `[0x0001, 0xffff]` and issue the discovery
request (`stubErr` is its result; on failure the error is printed and
the callback returns). -/
def connected (st : AppState) (conn : Nat) (stubErr : Int) : AppState × List Event :=
  if st.default_conn = some conn then
    let dp := DiscoverParams.mk (some UuidId.hrs) 0x0001 0xffff (some DiscType.primary)
    let evs := Event.discoverReq DiscType.primary UuidId.hrs 0x0001 0xffff stubErr ::
      (if stubErr ≠ 0 then [Event.discoverFailedMsg stubErr] else [])
    (AppState.mk st.default_conn dp st.subscribe_params, evs)
  else (st, [])

/-- The `disconnected(conn)` callback: when `conn` is the tracked
connection, release it (`default_conn = NULL`) and restart scanning
with `BT_SCAN_FILTER_DUP_DISABLE` (`scanErr` is the result of
`bt_start_scanning`; a failure is printed). -/
def disconnected (st : AppState) (conn : Nat) (scanErr : Int) : AppState × List Event :=
  if st.default_conn = some conn then
    (AppState.mk none st.discover_params st.subscribe_params,
      Event.scanStart BT_SCAN_FILTER_DUP_DISABLE scanErr ::
        (if scanErr ≠ 0 then [Event.scanFailedMsg scanErr] else []))
  else (st, [])

/-- The `default_conn = bt_conn_create_le(addr)` assignment performed in
`eir_found` when the target UUID is found: a new connection becomes the
tracked one. -/
def conn_create (st : AppState) (c : Nat) : AppState :=
  AppState.mk (some c) st.discover_params st.subscribe_params

/-- The program entry point `main`: after `bt_enable` (whose result is
`enableErr`; on failure `main` returns without scanning), it registers
the connection callbacks and starts scanning with
`BT_SCAN_FILTER_DUP_ENABLE` (`scanErr` is the result; a failure is
printed).  Returns the emitted events. -/
def main (enableErr scanErr : Int) : List Event :=
  if enableErr ≠ 0 then []
  else
    Event.scanStart BT_SCAN_FILTER_DUP_ENABLE scanErr ::
      (if scanErr ≠ 0 then [Event.scanFailedMsg scanErr] else [])

/-- Byte buffer `[0x01, 0x02]` (zeros beyond): a single AD record with
length field 1 and type `BT_EIR_UUID16_SOME`, so with no data bytes. -/
def oobMem : Nat → Nat :=
  fun i => if i = 0 then 1 else if i = 1 then 2 else 0

/-- C1: the claim that running `ad_parse` with the `eir_found` visitor
never reads a byte at an index `≥ len` is false on the code: on the
2-byte buffer `[0x01, 0x02]` the UUID16 scan loop (`i < eir->len` over
the `eir->len - 1` data bytes) reads the bytes at indices 2 and 3. -/
theorem c1_read_out_of_bounds :
    ¬ (∀ i ∈ (ad_parse oobMem (eir_found oobMem) 0 2).2.1, i < 2) := by
  decide

/-- C2: at a record offset reached with `r` remaining bytes and length
byte `L > 0`, if `1 + L > r` or `r < 2`, `ad_parse` reports malformed
input and stops: no visit call is made for this record (or any later
one) and the run ends with `ParseEnd.malformed`. -/
theorem c2_malformed_stops (mem : Nat → Nat) (f : Nat → VisitOut) (o r L : Nat)
    (hr : 0 < r) (hL : mem o % 256 = L) (hLpos : 0 < L)
    (hbad : 1 + L > r ∨ r < 2) :
    ad_parse mem f o r = ([], [o], ParseEnd.malformed) := by
  subst hL
  rw [ad_parse_eq, if_neg (by omega), if_neg (by omega), if_pos (by omega)]

/-- Witness for `c2_malformed_stops` at the all-5 memory, one remaining
byte: the length byte claims 5 bytes follow but only 0 do. -/
theorem c2_malformed_stops_witness :
    (0 < 1 ∧ (fun _ : Nat => 5) 0 % 256 = 5 ∧ 0 < 5 ∧ (1 + 5 > 1 ∨ 1 < 2)) ∧
      ad_parse (fun _ => 5) (fun _ => VisitOut.mk true []) 0 1 = ([], [0], ParseEnd.malformed) :=
  ⟨by decide,
    c2_malformed_stops (fun _ => 5) (fun _ => VisitOut.mk true []) 0 1 5
      (by decide) (by decide) (by decide) (by decide)⟩

/-- C4: from a state tracking connection 0, the `connected` callback
followed by `discover_func` on attributes with handles 10, 20 and 30
ends with recorded `value_handle = 21` in the `Subscribed` stage, and
the emitted requests are exactly three discovery requests (primary from
handle 1, characteristic from 11, descriptor from 22, all ending at
0xffff) followed by one subscribe request on handle 30 with value
handle 21; each callback returns `BT_GATT_ITER_STOP`. -/
theorem c4_discovery_scenario :
    (let st0 := AppState.mk (some 0) (DiscoverParams.mk none 0 0 none)
        (SubscribeParams.mk 0 0 false)
     let r1 := connected st0 0 0
     let r2 := discover_func r1.1 10 0
     let r3 := discover_func r2.1 20 0
     let r4 := discover_func r3.1 30 0
     let tr := r1.2 ++ r2.2.1 ++ r3.2.1 ++ r4.2.1
     stageOf r4.1 tr = Stage.subscribed ∧
       r4.1.subscribe_params.value_handle = 21 ∧
       tr = [Event.discoverReq DiscType.primary UuidId.hrs 0x0001 0xffff 0,
             Event.discoverReq DiscType.characteristic UuidId.hrm 11 0xffff 0,
             Event.discoverReq DiscType.descriptor UuidId.ccc 22 0xffff 0,
             Event.subscribeReq 30 21 0] ∧
       r2.2.2 = GattIter.stop ∧ r3.2.2 = GattIter.stop ∧ r4.2.2 = GattIter.stop) := by
  decide

theorem adParseFuel_visit_count (mem : Nat → Nat) (f : Nat → VisitOut) :
    ∀ fuel o len, (adParseFuel mem f fuel o len).1.length ≤ len / 2 := by
  intro fuel
  induction fuel with
  | zero => intro o len; simp [adParseFuel]
  | succ n ih =>
    intro o len
    by_cases h0 : len = 0
    · simp [adParseFuel, h0]
    · simp only [adParseFuel, if_neg h0]
      by_cases hL0 : mem o % 256 = 0
      · simp [hL0]
      · simp only [if_neg hL0]
        by_cases hbad : mem o % 256 + 1 > len ∨ len < 2
        · simp only [if_pos hbad, List.length_nil]
          omega
        · push_neg at hbad
          simp only [if_neg (by omega : ¬(mem o % 256 + 1 > len ∨ len < 2))]
          by_cases hc : (f o).cont = true
          · simp only [if_pos hc, List.length_cons]
            have := ih (o + 1 + mem o % 256) (len - (1 + mem o % 256))
            omega
          · simp only [if_neg hc, List.length_cons, List.length_nil]
            omega

/-- C9: `ad_parse` terminates on every buffer (the embedding is a total
function whose loop bound `len` is exact, each non-returning iteration
consuming `1 + L ≥ 2` bytes), and the number of iterations that invoke
the visitor is at most half the buffer length. -/
theorem c9_visit_count_le_half (mem : Nat → Nat) (f : Nat → VisitOut) (o len : Nat) :
    (ad_parse mem f o len).1.length ≤ len / 2 :=
  adParseFuel_visit_count mem f len o len

/-- C5: a `UUID16_SOME`/`UUID16_ALL` record whose data length `L - 1`
is odd is treated as malformed by `eir_found` and skipped: the visitor
returns `true` (continue) without reading any data byte, and `ad_parse`
goes on to parse the subsequent records of the buffer (its result is
the record's offset consed onto the parse of the rest; the scan is not
aborted). -/
theorem c5_odd_uuid16_skipped (mem : Nat → Nat) (o len L : Nat)
    (hL : mem o % 256 = L) (hL1 : 1 ≤ L) (hodd : (L - 1) % 2 = 1)
    (ht : mem (o + 1) % 256 = BT_EIR_UUID16_SOME ∨ mem (o + 1) % 256 = BT_EIR_UUID16_ALL)
    (hfit : L + 1 ≤ len) :
    (eir_found mem o).cont = true ∧ (eir_found mem o).reads = [o, o + 1] ∧
      ad_parse mem (eir_found mem) o len =
        (o :: (ad_parse mem (eir_found mem) (o + 1 + L) (len - (1 + L))).1,
          o :: o :: (o + 1) :: (ad_parse mem (eir_found mem) (o + 1 + L) (len - (1 + L))).2.1,
          (ad_parse mem (eir_found mem) (o + 1 + L) (len - (1 + L))).2.2) := by
  subst hL
  have hef : eir_found mem o = VisitOut.mk true [o, o + 1] := by
    simp only [eir_found]
    rw [if_pos ht, if_pos (by omega)]
  refine ⟨by rw [hef], by rw [hef], ?_⟩
  rw [ad_parse_eq, if_neg (by omega), if_neg (by omega),
    if_neg (by omega : ¬(mem o % 256 + 1 > len ∨ len < 2)), if_pos (by rw [hef])]
  simp [hef]

/-- Witness for `c5_odd_uuid16_skipped`: buffer `[2, 2, 0, 1, 255]` —
a `UUID16_SOME` record of length 2 (one data byte, odd data length)
followed by a record of length 1 and type 255. -/
theorem c5_odd_uuid16_skipped_witness :
    ((fun i => [2, 2, 0, 1, 255].getD i 0) 0 % 256 = 2 ∧ 1 ≤ 2 ∧ (2 - 1) % 2 = 1 ∧
        ((fun i => [2, 2, 0, 1, 255].getD i 0) (0 + 1) % 256 = BT_EIR_UUID16_SOME ∨
          (fun i => [2, 2, 0, 1, 255].getD i 0) (0 + 1) % 256 = BT_EIR_UUID16_ALL) ∧
        2 + 1 ≤ 5) ∧
      ((eir_found (fun i => [2, 2, 0, 1, 255].getD i 0) 0).cont = true ∧
        (eir_found (fun i => [2, 2, 0, 1, 255].getD i 0) 0).reads = [0, 0 + 1] ∧
        ad_parse (fun i => [2, 2, 0, 1, 255].getD i 0)
            (eir_found (fun i => [2, 2, 0, 1, 255].getD i 0)) 0 5 =
          (0 :: (ad_parse (fun i => [2, 2, 0, 1, 255].getD i 0)
              (eir_found (fun i => [2, 2, 0, 1, 255].getD i 0)) (0 + 1 + 2) (5 - (1 + 2))).1,
            0 :: 0 :: (0 + 1) :: (ad_parse (fun i => [2, 2, 0, 1, 255].getD i 0)
              (eir_found (fun i => [2, 2, 0, 1, 255].getD i 0)) (0 + 1 + 2) (5 - (1 + 2))).2.1,
            (ad_parse (fun i => [2, 2, 0, 1, 255].getD i 0)
              (eir_found (fun i => [2, 2, 0, 1, 255].getD i 0)) (0 + 1 + 2) (5 - (1 + 2))).2.2)) :=
  ⟨by decide,
    c5_odd_uuid16_skipped (fun i => [2, 2, 0, 1, 255].getD i 0) 0 5 2
      (by decide) (by decide) (by decide) (by decide) (by decide)⟩

/-- C6: in the descriptor stage (`discover_params.uuid == &ccc`), the
subscribe attempt made by `discover_func` returns `BT_GATT_ITER_STOP`
unconditionally; a result of `-EALREADY` is treated as success (no
error message, just the request event), any other nonzero result is
reported with a subscribe-failure message; and in all cases the session
has issued its subscribe request, so it is in the `Subscribed` stage. -/
theorem c6_subscribe_already_ok (st : AppState) (h : Nat) (err : Int)
    (hu : st.discover_params.uuid = some UuidId.ccc) :
    (discover_func st h err).2.2 = GattIter.stop ∧
      (err = -EALREADY →
        (discover_func st h err).2.1 =
          [Event.subscribeReq h st.subscribe_params.value_handle err]) ∧
      (err ≠ 0 ∧ err ≠ -EALREADY →
        (discover_func st h err).2.1 =
          [Event.subscribeReq h st.subscribe_params.value_handle err,
            Event.subscribeFailedMsg err]) ∧
      stageOf (discover_func st h err).1 (discover_func st h err).2.1 = Stage.subscribed := by
  have hd : discover_func st h err =
      (AppState.mk st.default_conn st.discover_params
          (SubscribeParams.mk st.subscribe_params.value_handle BT_GATT_CCC_NOTIFY true),
        Event.subscribeReq h st.subscribe_params.value_handle err ::
          (if err ≠ 0 ∧ err ≠ -EALREADY then [Event.subscribeFailedMsg err] else []),
        GattIter.stop) := by
    simp only [discover_func, hu]
  rw [hd]
  refine ⟨rfl, ?_, ?_, ?_⟩
  · intro he
    subst he
    rw [if_neg (by simp [EALREADY])]
  · intro he
    rw [if_pos he]
  · simp [stageOf, isSubscribeReq]

/-- Witness for `c6_subscribe_already_ok`: a state parked in the
descriptor stage with recorded value handle 21, attribute handle 30,
subscribe result `-EALREADY`. -/
theorem c6_subscribe_already_ok_witness :
    ((AppState.mk (some 0) (DiscoverParams.mk (some UuidId.ccc) 22 0xffff
          (some DiscType.descriptor)) (SubscribeParams.mk 21 0 false)).discover_params.uuid
        = some UuidId.ccc) ∧
      ((discover_func (AppState.mk (some 0) (DiscoverParams.mk (some UuidId.ccc) 22 0xffff
          (some DiscType.descriptor)) (SubscribeParams.mk 21 0 false)) 30 (-EALREADY)).2.2
        = GattIter.stop ∧
      (-EALREADY = -EALREADY →
        (discover_func (AppState.mk (some 0) (DiscoverParams.mk (some UuidId.ccc) 22 0xffff
            (some DiscType.descriptor)) (SubscribeParams.mk 21 0 false)) 30 (-EALREADY)).2.1 =
          [Event.subscribeReq 30 21 (-EALREADY)]) ∧
      (-EALREADY ≠ 0 ∧ -EALREADY ≠ -EALREADY →
        (discover_func (AppState.mk (some 0) (DiscoverParams.mk (some UuidId.ccc) 22 0xffff
            (some DiscType.descriptor)) (SubscribeParams.mk 21 0 false)) 30 (-EALREADY)).2.1 =
          [Event.subscribeReq 30 21 (-EALREADY), Event.subscribeFailedMsg (-EALREADY)]) ∧
      stageOf (discover_func (AppState.mk (some 0) (DiscoverParams.mk (some UuidId.ccc) 22 0xffff
          (some DiscType.descriptor)) (SubscribeParams.mk 21 0 false)) 30 (-EALREADY)).1
        (discover_func (AppState.mk (some 0) (DiscoverParams.mk (some UuidId.ccc) 22 0xffff
          (some DiscType.descriptor)) (SubscribeParams.mk 21 0 false)) 30 (-EALREADY)).2.1
        = Stage.subscribed) :=
  ⟨rfl,
    c6_subscribe_already_ok (AppState.mk (some 0) (DiscoverParams.mk (some UuidId.ccc) 22 0xffff
      (some DiscType.descriptor)) (SubscribeParams.mk 21 0 false)) 30 (-EALREADY) rfl⟩

/-- C7 counterexample: with the discovery session idle
(`discover_params.uuid == NULL`) and connection 0 tracked, a `connected`
callback whose discovery request is rejected (result `-5`) does NOT
leave the session in the `Idle` stage with its state unchanged:
`connected` assigns `discover_params` before issuing the request, so the
state differs from the pre-call state and the stage abstraction reads
`DiscoverPrimaryService`, not `Idle`. -/
theorem c7_rejected_not_idle :
    (connected (AppState.mk (some 0) (DiscoverParams.mk none 0 0 none)
          (SubscribeParams.mk 0 0 false)) 0 (-5)).1 ≠
        AppState.mk (some 0) (DiscoverParams.mk none 0 0 none) (SubscribeParams.mk 0 0 false) ∧
      stageOf (connected (AppState.mk (some 0) (DiscoverParams.mk none 0 0 none)
          (SubscribeParams.mk 0 0 false)) 0 (-5)).1
        (connected (AppState.mk (some 0) (DiscoverParams.mk none 0 0 none)
          (SubscribeParams.mk 0 0 false)) 0 (-5)).2 ≠ Stage.idle := by
  decide

/-- C7 (amended): when the initial primary-service discovery request of
the `connected` callback for the tracked connection is rejected, the
error is reported and no further request is issued (the callback emits
exactly the rejected request and the failure message); the tracked
connection is unchanged, but `discover_params` has already been set up
for primary-service discovery over `[0x0001, 0xffff]`, so the session
is left parked in the `DiscoverPrimaryService` stage (not `Idle`). -/
theorem c7_rejected_parks_primary (st : AppState) (c : Nat) (err : Int)
    (hc : st.default_conn = some c) (he : err ≠ 0) :
    (connected st c err).2 =
        [Event.discoverReq DiscType.primary UuidId.hrs 0x0001 0xffff err,
          Event.discoverFailedMsg err] ∧
      (connected st c err).1.discover_params =
        DiscoverParams.mk (some UuidId.hrs) 0x0001 0xffff (some DiscType.primary) ∧
      (connected st c err).1.default_conn = st.default_conn ∧
      stageOf (connected st c err).1 (connected st c err).2 = Stage.discoverPrimaryService := by
  simp only [connected, if_pos hc, if_pos he]
  simp [stageOf, isSubscribeReq]

/-- Witness for `c7_rejected_parks_primary`: idle state tracking
connection 0, discovery request rejected with `-5`. -/
theorem c7_rejected_parks_primary_witness :
    ((AppState.mk (some 0) (DiscoverParams.mk none 0 0 none)
          (SubscribeParams.mk 0 0 false)).default_conn = some 0 ∧ (-5 : Int) ≠ 0) ∧
      ((connected (AppState.mk (some 0) (DiscoverParams.mk none 0 0 none)
            (SubscribeParams.mk 0 0 false)) 0 (-5)).2 =
          [Event.discoverReq DiscType.primary UuidId.hrs 0x0001 0xffff (-5),
            Event.discoverFailedMsg (-5)] ∧
        (connected (AppState.mk (some 0) (DiscoverParams.mk none 0 0 none)
            (SubscribeParams.mk 0 0 false)) 0 (-5)).1.discover_params =
          DiscoverParams.mk (some UuidId.hrs) 0x0001 0xffff (some DiscType.primary) ∧
        (connected (AppState.mk (some 0) (DiscoverParams.mk none 0 0 none)
            (SubscribeParams.mk 0 0 false)) 0 (-5)).1.default_conn =
          (AppState.mk (some 0) (DiscoverParams.mk none 0 0 none)
            (SubscribeParams.mk 0 0 false)).default_conn ∧
        stageOf (connected (AppState.mk (some 0) (DiscoverParams.mk none 0 0 none)
            (SubscribeParams.mk 0 0 false)) 0 (-5)).1
          (connected (AppState.mk (some 0) (DiscoverParams.mk none 0 0 none)
            (SubscribeParams.mk 0 0 false)) 0 (-5)).2 = Stage.discoverPrimaryService) :=
  ⟨⟨rfl, by decide⟩,
    c7_rejected_parks_primary (AppState.mk (some 0) (DiscoverParams.mk none 0 0 none)
      (SubscribeParams.mk 0 0 false)) 0 (-5) rfl (by decide)⟩

/-- C8: if the tracked connection disconnects while the session is in
the `DiscoverCharacteristic` stage (`discover_params.uuid == &hrm`),
the tracked connection is cleared, and once a new connection is created
and its `connected` callback runs, discovery restarts in the
`DiscoverPrimaryService` stage with a fresh search window
`[0x0001, 0xffff]`, issuing exactly the primary-service discovery
request. -/
theorem c8_disconnect_resets (st : AppState) (c c2 : Nat) (scanErr : Int)
    (hu : st.discover_params.uuid = some UuidId.hrm) (hc : st.default_conn = some c) :
    stageOf st [] = Stage.discoverCharacteristic ∧
      (disconnected st c scanErr).1.default_conn = none ∧
      (connected (conn_create (disconnected st c scanErr).1 c2) c2 0).1.discover_params =
        DiscoverParams.mk (some UuidId.hrs) 0x0001 0xffff (some DiscType.primary) ∧
      (connected (conn_create (disconnected st c scanErr).1 c2) c2 0).2 =
        [Event.discoverReq DiscType.primary UuidId.hrs 0x0001 0xffff 0] ∧
      stageOf (connected (conn_create (disconnected st c scanErr).1 c2) c2 0).1
        (connected (conn_create (disconnected st c scanErr).1 c2) c2 0).2 =
        Stage.discoverPrimaryService := by
  have hd : (disconnected st c scanErr).1 =
      AppState.mk none st.discover_params st.subscribe_params := by
    simp only [disconnected, if_pos hc]
  rw [hd]
  have hcon : connected (conn_create (AppState.mk none st.discover_params st.subscribe_params) c2)
      c2 0 =
      (AppState.mk (some c2)
          (DiscoverParams.mk (some UuidId.hrs) 0x0001 0xffff (some DiscType.primary))
          st.subscribe_params,
        [Event.discoverReq DiscType.primary UuidId.hrs 0x0001 0xffff 0]) := by
    simp [connected, conn_create]
  rw [hcon]
  exact ⟨by simp [stageOf, isSubscribeReq, hu], rfl, rfl, rfl,
    by simp [stageOf, isSubscribeReq]⟩

/-- Witness for `c8_disconnect_resets`: a session in the characteristic
stage on connection 0, disconnection, then reconnection as
connection 1. -/
theorem c8_disconnect_resets_witness :
    ((AppState.mk (some 0) (DiscoverParams.mk (some UuidId.hrm) 11 0xffff
            (some DiscType.characteristic)) (SubscribeParams.mk 0 0 false)).discover_params.uuid
        = some UuidId.hrm ∧
      (AppState.mk (some 0) (DiscoverParams.mk (some UuidId.hrm) 11 0xffff
            (some DiscType.characteristic)) (SubscribeParams.mk 0 0 false)).default_conn
        = some 0) ∧
      (stageOf (AppState.mk (some 0) (DiscoverParams.mk (some UuidId.hrm) 11 0xffff
            (some DiscType.characteristic)) (SubscribeParams.mk 0 0 false)) []
          = Stage.discoverCharacteristic ∧
        (disconnected (AppState.mk (some 0) (DiscoverParams.mk (some UuidId.hrm) 11 0xffff
            (some DiscType.characteristic)) (SubscribeParams.mk 0 0 false)) 0 0).1.default_conn
          = none ∧
        (connected (conn_create (disconnected (AppState.mk (some 0)
              (DiscoverParams.mk (some UuidId.hrm) 11 0xffff (some DiscType.characteristic))
              (SubscribeParams.mk 0 0 false)) 0 0).1 1) 1 0).1.discover_params =
          DiscoverParams.mk (some UuidId.hrs) 0x0001 0xffff (some DiscType.primary) ∧
        (connected (conn_create (disconnected (AppState.mk (some 0)
              (DiscoverParams.mk (some UuidId.hrm) 11 0xffff (some DiscType.characteristic))
              (SubscribeParams.mk 0 0 false)) 0 0).1 1) 1 0).2 =
          [Event.discoverReq DiscType.primary UuidId.hrs 0x0001 0xffff 0] ∧
        stageOf (connected (conn_create (disconnected (AppState.mk (some 0)
              (DiscoverParams.mk (some UuidId.hrm) 11 0xffff (some DiscType.characteristic))
              (SubscribeParams.mk 0 0 false)) 0 0).1 1) 1 0).1
          (connected (conn_create (disconnected (AppState.mk (some 0)
              (DiscoverParams.mk (some UuidId.hrm) 11 0xffff (some DiscType.characteristic))
              (SubscribeParams.mk 0 0 false)) 0 0).1 1) 1 0).2 =
          Stage.discoverPrimaryService) :=
  ⟨⟨rfl, rfl⟩,
    c8_disconnect_resets (AppState.mk (some 0) (DiscoverParams.mk (some UuidId.hrm) 11 0xffff
      (some DiscType.characteristic)) (SubscribeParams.mk 0 0 false)) 0 1 0 rfl rfl⟩

/-- C10: the startup scan requested by `main` passes
`BT_SCAN_FILTER_DUP_ENABLE` to `bt_start_scanning`, while the scan
restarted by `disconnected` after the tracked connection drops passes
`BT_SCAN_FILTER_DUP_DISABLE`; the two entry points use different
duplicate-filtering values. -/
theorem c10_scan_filter_values (st : AppState) (c : Nat) (scanErr1 scanErr2 : Int)
    (hc : st.default_conn = some c) :
    (main 0 scanErr1).head? = some (Event.scanStart BT_SCAN_FILTER_DUP_ENABLE scanErr1) ∧
      (disconnected st c scanErr2).2.head? =
        some (Event.scanStart BT_SCAN_FILTER_DUP_DISABLE scanErr2) ∧
      BT_SCAN_FILTER_DUP_ENABLE ≠ BT_SCAN_FILTER_DUP_DISABLE := by
  refine ⟨by simp [main], ?_, by decide⟩
  simp only [disconnected, if_pos hc]
  rfl

/-- Witness for `c10_scan_filter_values`: tracked connection 0, both
scan starts accepted. -/
theorem c10_scan_filter_values_witness :
    ((AppState.mk (some 0) (DiscoverParams.mk none 0 0 none)
          (SubscribeParams.mk 0 0 false)).default_conn = some 0) ∧
      ((main 0 0).head? = some (Event.scanStart BT_SCAN_FILTER_DUP_ENABLE 0) ∧
        (disconnected (AppState.mk (some 0) (DiscoverParams.mk none 0 0 none)
            (SubscribeParams.mk 0 0 false)) 0 0).2.head? =
          some (Event.scanStart BT_SCAN_FILTER_DUP_DISABLE 0) ∧
        BT_SCAN_FILTER_DUP_ENABLE ≠ BT_SCAN_FILTER_DUP_DISABLE) :=
  ⟨rfl,
    c10_scan_filter_values (AppState.mk (some 0) (DiscoverParams.mk none 0 0 none)
      (SubscribeParams.mk 0 0 false)) 0 0 0 rfl⟩

theorem adParse_encode_agree (g : AdRecord → Bool) :
    ∀ (rs : List AdRecord) (mem : Nat → Nat) (o : Nat),
      (∀ r ∈ rs, wfRec r = true) → memAgrees mem o (encode rs) →
      (ad_parse mem (liftVisitor mem g) o (encode rs).length).1.map (recAt mem)
          = visitsOf g rs ∧
        (ad_parse mem (liftVisitor mem g) o (encode rs).length).2.2 = stopReason g rs := by
  intro rs
  induction rs with
  | nil =>
    intro mem o _ _
    simp only [encode, List.length_nil]
    rw [ad_parse_eq]
    simp [visitsOf, stopReason]
  | cons r rest ih =>
    intro mem o hwf hag
    obtain ⟨rl, rt, rd⟩ := r
    have hwr := hwf (AdRecord.mk rl rt rd) (by simp)
    simp only [wfRec, Bool.and_eq_true, beq_iff_eq, decide_eq_true_eq,
      List.all_eq_true] at hwr
    obtain ⟨⟨⟨hlen, hle⟩, htype⟩, hdata⟩ := hwr
    have henc : encode (AdRecord.mk rl rt rd :: rest) = rl :: rt :: (rd ++ encode rest) := by
      simp [encode, encRec]
    rw [henc] at hag
    rw [memAgrees_cons] at hag
    obtain ⟨h0, hag⟩ := hag
    rw [memAgrees_cons] at hag
    obtain ⟨h1, hag⟩ := hag
    rw [memAgrees_append] at hag
    obtain ⟨hdAg, hrestAg⟩ := hag
    have ho2 : o + 1 + 1 = o + 2 := by omega
    rw [ho2] at hdAg hrestAg
    have hmodL : mem o % 256 = rl := by
      rw [h0]
      exact Nat.mod_eq_of_lt (by omega)
    have hmodT : mem (o + 1) % 256 = rt := by
      rw [h1]
      exact Nat.mod_eq_of_lt (by omega)
    have hrecAt : recAt mem o = AdRecord.mk rl rt rd := by
      have h3 : (List.range rd.length).map (fun i => mem (o + 2 + i) % 256) = rd :=
        range_map_of_agrees mem rd (o + 2) hdAg hdata
      unfold recAt
      rw [hmodL, hmodT]
      have h4 : rl - 1 = rd.length := by omega
      rw [h4, h3]
    have hvis : liftVisitor mem g o = VisitOut.mk (g (AdRecord.mk rl rt rd)) [] := by
      simp [liftVisitor, hrecAt]
    have hwfrest : ∀ x ∈ rest, wfRec x = true :=
      fun x hx => hwf x (List.mem_cons_of_mem _ hx)
    have hrest2 : memAgrees mem (o + 1 + rl) (encode rest) := by
      have harith : o + 2 + rd.length = o + 1 + rl := by omega
      rw [← harith]
      exact hrestAg
    rw [henc, ad_parse_eq, hmodL]
    rw [if_neg (by simp), if_neg (by omega),
      if_neg (by simp only [List.length_cons, List.length_append]; omega)]
    have hlen2 : (rl :: rt :: (rd ++ encode rest)).length - (1 + rl) = (encode rest).length := by
      simp only [List.length_cons, List.length_append]
      omega
    rw [hlen2]
    obtain ⟨ih1, ih2⟩ := ih mem (o + 1 + rl) hwfrest hrest2
    cases hg : g (AdRecord.mk rl rt rd) with
    | true =>
      rw [if_pos (by rw [hvis]; exact hg)]
      refine ⟨?_, ?_⟩
      · simp [visitsOf, hg, hrecAt, ih1]
      · simp [stopReason, hg, ih2]
    | false =>
      rw [if_neg (by rw [hvis]; simp [hg])]
      refine ⟨?_, ?_⟩
      · simp [visitsOf, hg, hrecAt]
      · simp [stopReason, hg]

/-- C3: round-trip.  Encoding a sequence of well-formed AD records into
a flat buffer and parsing it back with `ad_parse` produces visit calls
whose length, type and data fields equal the original records, in the
original order, up to and including the first record on which the
visitor returns `false`; parsing stops exactly because that visitor
returned `false` (`ParseEnd.visitStop`) or, if every visitor returned
`true`, because the end of the buffer was reached (`ParseEnd.bufEnd`). -/
theorem c3_encode_parse_roundtrip (g : AdRecord → Bool) (rs : List AdRecord)
    (hwf : ∀ r ∈ rs, wfRec r = true) :
    (ad_parse (encMem rs) (liftVisitor (encMem rs) g) 0 (encode rs).length).1.map
        (recAt (encMem rs)) = visitsOf g rs ∧
      (ad_parse (encMem rs) (liftVisitor (encMem rs) g) 0 (encode rs).length).2.2
        = stopReason g rs := by
  apply adParse_encode_agree g rs (encMem rs) 0 hwf
  intro i hi
  simp [encMem]

/-- Witness for `c3_encode_parse_roundtrip`: two well-formed records,
the visitor stopping on the second (type 255). -/
theorem c3_encode_parse_roundtrip_witness :
    (∀ r ∈ [AdRecord.mk 3 9 [65, 66], AdRecord.mk 2 255 [7]], wfRec r = true) ∧
      ((ad_parse (encMem [AdRecord.mk 3 9 [65, 66], AdRecord.mk 2 255 [7]])
            (liftVisitor (encMem [AdRecord.mk 3 9 [65, 66], AdRecord.mk 2 255 [7]])
              (fun r => r.type != 255)) 0
            (encode [AdRecord.mk 3 9 [65, 66], AdRecord.mk 2 255 [7]]).length).1.map
          (recAt (encMem [AdRecord.mk 3 9 [65, 66], AdRecord.mk 2 255 [7]])) =
        visitsOf (fun r => r.type != 255) [AdRecord.mk 3 9 [65, 66], AdRecord.mk 2 255 [7]] ∧
      (ad_parse (encMem [AdRecord.mk 3 9 [65, 66], AdRecord.mk 2 255 [7]])
          (liftVisitor (encMem [AdRecord.mk 3 9 [65, 66], AdRecord.mk 2 255 [7]])
            (fun r => r.type != 255)) 0
          (encode [AdRecord.mk 3 9 [65, 66], AdRecord.mk 2 255 [7]]).length).2.2
        = stopReason (fun r => r.type != 255)
            [AdRecord.mk 3 9 [65, 66], AdRecord.mk 2 255 [7]]) :=
  ⟨by decide,
    c3_encode_parse_roundtrip (fun r => r.type != 255)
      [AdRecord.mk 3 9 [65, 66], AdRecord.mk 2 255 [7]] (by decide)⟩

end BtCentral
